import Mathlib

/-!
Shallow embedding of the bmad-autopilot auto-fix and sprint-status core.

The definitions below are translated from the repository source:
* `bmad_mcp/auto_fix/parser.py`   — `ReviewIssueParser` (regex families are
  hand-compiled to explicit scanners with the same backtracking semantics);
* `bmad_mcp/auto_fix/modifier.py` — `BackupManager`, `CodeModifier` over an
  explicit filesystem state (paths are modeled as already-resolved component
  lists; backup/temp file names, produced in Python from timestamps, UUIDs and
  `mkstemp`, are passed in as parameters);
* `bmad_mcp/auto_fix/engine.py`   — `FixStrategyEngine.fix_issues`;
* `bmad_mcp/auto_fix/strategies/formatting.py` and `strategies/base.py`
  — `FormattingStrategy.apply_fix` / `FixStrategy.validate_fix`, with the
  external `black`/`isort` subprocesses modeled as content-transforming
  functions;
* `bmad_mcp/sprint.py`            — sprint status store operations.

Machine-level effects (fsync, advisory file locks, process concurrency) are
outside the embedding; fallible operations return `Except` values that carry
the filesystem state at raise time, so "no mutation before the error" is a
provable statement.
-/

namespace BmadMcp

/-! ## Character helpers (Python `\s`, `str.strip`, `str.lower`, ASCII classes) -/

def isPySpace (c : Char) : Bool :=
  c = ' ' || c = '\t' || c = '\n' || c = '\r' || c = '\x0b' || c = '\x0c'

def isColonSpace (c : Char) : Bool :=
  c = ':' || isPySpace c

def isAsciiLetter (c : Char) : Bool :=
  ('a' ≤ c && c ≤ 'z') || ('A' ≤ c && c ≤ 'Z')

def isAsciiDigit (c : Char) : Bool :=
  '0' ≤ c && c ≤ '9'

/-- Character class `[a-zA-Z0-9_/.-]` used by the file-reference regexes. -/
def fileChar (c : Char) : Bool :=
  isAsciiLetter c || isAsciiDigit c || c = '_' || c = '/' || c = '.' || c = '-'

def lowerChar (c : Char) : Char :=
  if 'A' ≤ c && c ≤ 'Z' then Char.ofNat (c.toNat + 32) else c

/-- Python `str.strip()` on ASCII text: drop leading and trailing whitespace. -/
def stripWs (cs : List Char) : List Char :=
  ((cs.dropWhile isPySpace).reverse.dropWhile isPySpace).reverse

def countLeading (p : Char → Bool) : List Char → Nat
  | [] => 0
  | c :: rest => if p c then countLeading p rest + 1 else 0

/-- Case-insensitive literal match: strip `pat` (ASCII, case-insensitively)
from the front of `cs`, returning the remainder. -/
def stripPfxCI : List Char → List Char → Option (List Char)
  | [], cs => some cs
  | _, [] => none
  | p :: ps, c :: cs => if lowerChar p = lowerChar c then stripPfxCI ps cs else none

/-- Case-sensitive literal prefix test. -/
def listIsPfx : List Char → List Char → Bool
  | [], _ => true
  | _, [] => false
  | p :: ps, c :: cs => p = c && listIsPfx ps cs

/-- Substring containment (Python `in` on strings). -/
def containsSub (pat : List Char) : List Char → Bool
  | [] => pat.isEmpty
  | c :: rest => listIsPfx pat (c :: rest) || containsSub pat rest

/-- Python `str.split(sep)` for a one-character separator. -/
def splitOnChar (sep : Char) : List Char → List (List Char)
  | [] => [[]]
  | c :: rest =>
    let r := splitOnChar sep rest
    if c = sep then [] :: r
    else match r with
      | l :: ls => (c :: l) :: ls
      | [] => [[c]]

def natOfDigits (ds : List Char) : Nat :=
  ds.foldl (fun n c => n * 10 + (c.toNat - 48)) 0

namespace ReviewParser

/-! ## `ReviewIssueParser` from `bmad_mcp/auto_fix/parser.py` -/

/-- The `Issue` dataclass from `bmad_mcp/auto_fix/models.py`. -/
structure Issue where
  severity : String
  problem : String
  file : String
  line : Option Nat
  fix_type : String
  suggested_fix : Option String
  full_context : String
deriving Repr, DecidableEq

/-- `AUTO_FIX_KEYWORDS` from `parser.py`. -/
def AUTO_FIX_KEYWORDS : List String :=
  ["format", "formatting", "black", "isort", "import order", "unused import",
   "missing import", "whitespace", "indentation", "trailing", "lint"]

/-- The manual keyword list from `ReviewIssueParser._categorize_fix_type`. -/
def MANUAL_KEYWORDS : List String :=
  ["security", "vulnerability", "injection", "logic", "architecture", "design"]

/-- `_categorize_fix_type(problem, full_context)`: substring keyword matching
against the lowercased concatenation `problem + " " + full_context`. -/
def categorizeFixType (problem fullContext : List Char) : String :=
  let combined := (problem ++ [' '] ++ fullContext).map lowerChar
  if AUTO_FIX_KEYWORDS.any (fun k => containsSub k.data combined) then "auto"
  else if MANUAL_KEYWORDS.any (fun k => containsSub k.data combined) then "manual"
  else "manual"

/-- Leftmost occurrence of the literal `pat`: `some (before, after)` splits the
input around the first occurrence. -/
def splitOnSub (pat : List Char) : List Char → Option (List Char × List Char)
  | [] => if pat.isEmpty then some ([], []) else none
  | c :: rest =>
    if listIsPfx pat (c :: rest) then some ([], (c :: rest).drop pat.length)
    else (splitOnSub pat rest).map (fun ba => (c :: ba.1, ba.2))

/-- `re.sub(r'```[\s\S]*?```', '', text)`: repeatedly delete the leftmost
fenced code block (opening fence, minimal body, closing fence). -/
def stripCodeBlocksAux : Nat → List Char → List Char
  | 0, cs => cs
  | fuel + 1, cs =>
    match splitOnSub "```".data cs with
    | none => cs
    | some (before, afterOpen) =>
      match splitOnSub "```".data afterOpen with
      | none => cs
      | some (_, afterClose) => before ++ stripCodeBlocksAux fuel afterClose

/-- `ReviewIssueParser._strip_code_blocks`. -/
def stripCodeBlocks (cs : List Char) : List Char :=
  stripCodeBlocksAux cs.length cs

/-- Severity alternation `(CRITICAL|HIGH|MEDIUM|LOW)`, case-insensitive; the
captured group is normalized to uppercase by `.upper()` in `parse`. -/
def severityNames : List String := ["CRITICAL", "HIGH", "MEDIUM", "LOW"]

def matchSeverity (cs : List Char) : Option (String × List Char) :=
  severityNames.findSome? fun s => (stripPfxCI s.data cs).map (fun r => (s, r))

/-- Lazy `(.+?)` (DOTALL) against a terminator predicate: consume at least one
character, stopping at the first later position where `look` holds.  All three
issue-pattern lookaheads accept the end of input, so this always terminates
with the full remainder in the worst case. -/
def lazyScan (look : List Char → Bool) : List Char → List Char × List Char
  | [] => ([], [])
  | c :: rest =>
    if look rest then ([c], rest)
    else
      let ab := lazyScan look rest
      (c :: ab.1, ab.2)

/-- Lookahead of the bold pattern:
`(?=\*\*(?:CRITICAL|HIGH|MEDIUM|LOW)\*\*|\n##|\Z)`. -/
def lookaheadBold (cs : List Char) : Bool :=
  cs.isEmpty ||
  listIsPfx "\n##".data cs ||
  (match stripPfxCI "**".data cs with
   | some cs1 =>
     match matchSeverity cs1 with
     | some sr => listIsPfx "**".data sr.2
     | none => false
   | none => false)

/-- One attempt of pattern
`\*\*(SEV)\*\*[:\s]*(.+?)(?=\*\*(?:SEV)\*\*|\n##|\Z)` anchored at the current
position (DOTALL, IGNORECASE).  Returns the severity group, the raw group 2,
and the remainder after the match.  The greedy `[:\s]*` backtracks one
character when it would otherwise leave `(.+?)` empty at end of input. -/
def matchBoldAt (cs : List Char) : Option (String × List Char × List Char) :=
  match stripPfxCI "**".data cs with
  | none => none
  | some cs1 =>
    match matchSeverity cs1 with
    | none => none
    | some (sev, cs2) =>
      match stripPfxCI "**".data cs2 with
      | none => none
      | some cs3 =>
        let k := countLeading isColonSpace cs3
        let rest := cs3.drop k
        if rest.isEmpty then
          if k ≥ 1 then some (sev, cs3.drop (k - 1), []) else none
        else
          let ca := lazyScan lookaheadBold rest
          some (sev, ca.1, ca.2)

/-- Lookahead of the bracket pattern:
`(?=\[(?:CRITICAL|HIGH|MEDIUM|LOW)\]|\n##|\Z)`. -/
def lookaheadBracket (cs : List Char) : Bool :=
  cs.isEmpty ||
  listIsPfx "\n##".data cs ||
  (match cs with
   | '[' :: cs1 =>
     match matchSeverity cs1 with
     | some sr => listIsPfx "]".data sr.2
     | none => false
   | _ => false)

/-- One attempt of pattern
`\[(SEV)\][:\s]*(.+?)(?=\[(?:SEV)\]|\n##|\Z)` anchored at the current
position. -/
def matchBracketAt (cs : List Char) : Option (String × List Char × List Char) :=
  match cs with
  | '[' :: cs1 =>
    match matchSeverity cs1 with
    | none => none
    | some (sev, cs2) =>
      match cs2 with
      | ']' :: cs3 =>
        let k := countLeading isColonSpace cs3
        let rest := cs3.drop k
        if rest.isEmpty then
          if k ≥ 1 then some (sev, cs3.drop (k - 1), []) else none
        else
          let ca := lazyScan lookaheadBracket rest
          some (sev, ca.1, ca.2)
      | _ => none
  | _ => none

/-- Lookahead of the plain pattern:
`(?=\n(?:CRITICAL|HIGH|MEDIUM|LOW)[:\s]|\n##|\Z)`. -/
def lookaheadPlain (cs : List Char) : Bool :=
  cs.isEmpty ||
  listIsPfx "\n##".data cs ||
  (match cs with
   | '\n' :: cs1 =>
     match matchSeverity cs1 with
     | some sr =>
       match sr.2 with
       | c :: _ => isColonSpace c
       | [] => false
     | none => false
   | _ => false)

/-- The body of the plain pattern after `(?:^|\n)`:
`(SEV)[:\s]+(.+?)(?=\n(?:SEV)[:\s]|\n##|\Z)`.  The greedy `[:\s]+` keeps at
least one character; it backtracks one character when it would otherwise leave
`(.+?)` empty at end of input. -/
def matchPlainCore (cs : List Char) : Option (String × List Char × List Char) :=
  match matchSeverity cs with
  | none => none
  | some (sev, cs1) =>
    let k := countLeading isColonSpace cs1
    if k = 0 then none
    else
      let rest := cs1.drop k
      if rest.isEmpty then
        if k ≥ 2 then some (sev, cs1.drop (k - 1), []) else none
      else
        let ca := lazyScan lookaheadPlain rest
        some (sev, ca.1, ca.2)

/-- `re.finditer` scanning loop for the bold and bracket patterns: try a match
at every position, emitting non-overlapping matches left to right. -/
def runFinditer (matchAt : List Char → Option (String × List Char × List Char)) :
    Nat → List Char → List (String × List Char)
  | 0, _ => []
  | _ + 1, [] => []
  | fuel + 1, c :: rest =>
    match matchAt (c :: rest) with
    | some (sev, raw, after) => (sev, raw) :: runFinditer matchAt fuel after
    | none => runFinditer matchAt fuel rest

/-- `re.finditer` for the plain pattern: `(?:^|\n)` means the match may start
with the severity word only at position 0 (no MULTILINE flag), and elsewhere
must consume a newline first. -/
def finditerPlainAux : Nat → Bool → List Char → List (String × List Char)
  | 0, _, _ => []
  | fuel + 1, atStart, cs =>
    match (if atStart then matchPlainCore cs else none) with
    | some (sev, raw, after) => (sev, raw) :: finditerPlainAux fuel false after
    | none =>
      match cs with
      | [] => []
      | '\n' :: cs1 =>
        match matchPlainCore cs1 with
        | some (sev, raw, after) => (sev, raw) :: finditerPlainAux fuel false after
        | none => finditerPlainAux fuel false cs1
      | _ :: cs1 => finditerPlainAux fuel false cs1

def finditerPlain (cs : List Char) : List (String × List Char) :=
  finditerPlainAux (cs.length + 1) true cs

/-! ### `_extract_file_reference` -/

def letterAt (cs : List Char) (i : Nat) : Bool :=
  match cs.get? i with
  | some c => isAsciiLetter c
  | none => false

/-- Backtracking of `[a-zA-Z0-9_/.-]+\.[a-zA-Z]+` inside the maximal run of
class characters: choose the largest index `k ≥ 1` with a literal dot at `k`
followed by an ASCII letter.  `k` counts down from the initial argument. -/
def bestDotAux (cs : List Char) : Nat → Option Nat
  | 0 => none
  | k + 1 =>
    if cs.get? (k + 1) = some '.' && letterAt cs (k + 2) then some (k + 1)
    else bestDotAux cs k

/-- Greedy match of the filename group `([a-zA-Z0-9_/.-]+\.[a-zA-Z]+)` at the
current position: the class run is maximal, the dot is the last feasible one,
and the extension consumes the maximal letter run.  Returns the group and the
remainder. -/
def parseFilename (cs : List Char) : Option (List Char × List Char) :=
  let n := countLeading fileChar cs
  match bestDotAux cs (n - 2) with
  | none => none
  | some k =>
    let l := countLeading isAsciiLetter (cs.drop (k + 1))
    some (cs.take (k + 1 + l), cs.drop (k + 1 + l))

/-- One attempt of file pattern 1,
`[`'"](FILE)[`'"]?[:\s]*(?:line\s*)?(\d+)?`, at the current position
(IGNORECASE).  Everything after the filename group is optional, so no
backtracking into the group is ever needed. -/
def matchF1At (cs : List Char) : Option (List Char × Option (List Char)) :=
  match cs with
  | c :: rest =>
    if c = '`' || c = '\'' || c = '"' then
      match parseFilename rest with
      | some (fname, rest1) =>
        let rest2 :=
          match rest1 with
          | c2 :: r2 => if c2 = '`' || c2 = '\'' || c2 = '"' then r2 else rest1
          | [] => rest1
        let rest3 := rest2.drop (countLeading isColonSpace rest2)
        let rest4 :=
          match stripPfxCI "line".data rest3 with
          | some r => r.drop (countLeading isPySpace r)
          | none => rest3
        let d := countLeading isAsciiDigit rest4
        some (fname, if d = 0 then none else some (rest4.take d))
      | none => none
    else none
  | [] => none

/-- Tail `(\d+)?\)` of file pattern 2.  The greedy `\d+` can only succeed on
the full digit run (a shorter run leaves a digit where `\)` is required). -/
def f2TailDigits (cs : List Char) : Option (Option (List Char)) :=
  let d := countLeading isAsciiDigit cs
  if d > 0 then
    if cs.get? d = some ')' then some (some (cs.take d)) else none
  else
    match cs with
    | ')' :: _ => some none
    | _ => none

/-- Tail `(?:line\s*)?(\d+)?\)` of file pattern 2.  If the optional `line`
branch matches but the rest fails, the fallback without it also fails (the
position then starts with a letter), so ordered alternation is faithful. -/
def f2TailLine (cs : List Char) : Option (Option (List Char)) :=
  (match stripPfxCI "line".data cs with
   | some r => f2TailDigits (r.drop (countLeading isPySpace r))
   | none => none) <|>
  f2TailDigits cs

/-- Tail `,?\s*(?:line\s*)?(\d+)?\)` of file pattern 2.  The greedy `\s*`
cannot profitably backtrack: giving back a space leaves a space where only
`line`, a digit, or `)` can follow. -/
def f2Tail (cs : List Char) : Option (Option (List Char)) :=
  (match cs with
   | ',' :: r => f2TailLine (r.drop (countLeading isPySpace r))
   | _ => none) <|>
  f2TailLine (cs.drop (countLeading isPySpace cs))

/-- Letter-run backtracking of `[a-zA-Z]+` in file pattern 2 against the
required closing parenthesis: try the longest extension first. -/
def f2Letters (rest : List Char) (k : Nat) : Nat → Option (List Char × Option (List Char))
  | 0 => none
  | l + 1 =>
    (match f2Tail (rest.drop (k + 1 + (l + 1))) with
     | some lineG => some (rest.take (k + 1 + (l + 1)), lineG)
     | none => none) <|>
    f2Letters rest k l

/-- Dot-position backtracking of `[a-zA-Z0-9_/.-]+` in file pattern 2: try the
last feasible dot first, falling back to earlier dots. -/
def f2Search (rest : List Char) : Nat → Option (List Char × Option (List Char))
  | 0 => none
  | k + 1 =>
    (if rest.get? (k + 1) = some '.' && letterAt rest (k + 2) then
       f2Letters rest (k + 1) (countLeading isAsciiLetter (rest.drop (k + 2)))
     else none) <|>
    f2Search rest k

/-- One attempt of file pattern 2,
`\((FILE),?\s*(?:line\s*)?(\d+)?\)`, at the current position. -/
def matchF2At (cs : List Char) : Option (List Char × Option (List Char)) :=
  match cs with
  | '(' :: rest => f2Search rest (countLeading fileChar rest - 2)
  | _ => none

/-- One attempt of file pattern 3,
`(?:in|at|file)\s+(FILE)(?:[:\s]+(?:line\s*)?(\d+))?`, at the current
position (IGNORECASE).  The trailing group is optional and `[:\s]+` cannot
profitably backtrack (a surrendered colon/space character can never start
`line` or a digit run). -/
def matchF3At (cs : List Char) : Option (List Char × Option (List Char)) :=
  match stripPfxCI "in".data cs <|> stripPfxCI "at".data cs <|>
        stripPfxCI "file".data cs with
  | none => none
  | some rest0 =>
    let m := countLeading isPySpace rest0
    if m = 0 then none
    else
      match parseFilename (rest0.drop m) with
      | none => none
      | some (fname, rest2) =>
        let j := countLeading isColonSpace rest2
        let lineG :=
          if j = 0 then none
          else
            let rest3 := rest2.drop j
            let rest4 :=
              match stripPfxCI "line".data rest3 with
              | some r => r.drop (countLeading isPySpace r)
              | none => rest3
            let d := countLeading isAsciiDigit rest4
            if d = 0 then none else some (rest4.take d)
        some (fname, lineG)

/-- `re.search` scanning loop: try the position matcher at every index, left
to right, returning the first match. -/
def runSearch (matchAt : List Char → Option α) : List Char → Option α
  | [] => none
  | c :: rest => matchAt (c :: rest) <|> runSearch matchAt rest

/-- `ReviewIssueParser._extract_file_reference`: the three file patterns are
tried in priority order over the whole content; the first pattern with any
match wins.  Returns `(file_path, line_num)` with the line still a digit
string, as in the Python (`match.group(2)`). -/
def extractFileReference (content : List Char) :
    Option (List Char) × Option (List Char) :=
  match runSearch matchF1At content with
  | some fl => (some fl.1, fl.2)
  | none =>
    match runSearch matchF2At content with
    | some fl => (some fl.1, fl.2)
    | none =>
      match runSearch matchF3At content with
      | some fl => (some fl.1, fl.2)
      | none => (none, none)

/-! ### `_extract_suggested_fix` -/

def suggestKeywords : List String :=
  ["fix", "solution", "suggest", "should", "instead", "replace", "use"]

/-- One attempt of
`(?:fix|solution|suggest|should|instead|replace|use)[:\s]*(.+?)(?:\n|$)`
at the current position (IGNORECASE, no DOTALL, so `.` excludes newlines and
`$` also matches before a final newline).  When the greedy `[:\s]*` reaches
the end of input it backtracks until `(.+?)` can hold one non-newline
character. -/
def matchSuggestAt (cs : List Char) : Option (List Char) :=
  match suggestKeywords.findSome? (fun kw => stripPfxCI kw.data cs) with
  | none => none
  | some rest0 =>
    let m := countLeading isColonSpace rest0
    let rest := rest0.drop m
    if rest.isEmpty then
      match ((rest0.take m).filter (fun c => c ≠ '\n')).getLast? with
      | some c => some [c]
      | none => none
    else
      some (rest.takeWhile (fun c => c ≠ '\n'))

/-- `ReviewIssueParser._extract_suggested_fix` (the stripped group, or
`None`). -/
def extractSuggestedFix (content : List Char) : Option (List Char) :=
  (runSearch matchSuggestAt content).map stripWs

/-! ### `ReviewIssueParser.parse` -/

/-- Processing of one regex match inside `parse`: strip the raw group, run
file/problem/suggested-fix extraction and fix-type classification, and build
the `Issue` together with its dedup key
`f"{severity}:{file_path}:{line_num}:{problem[:30]}"`. -/
def processMatch (sev : String) (rawGroup : List Char) : Issue × String :=
  let raw := stripWs rawGroup
  let fl := extractFileReference raw
  let lines := ((splitOnChar '\n' raw).map stripWs).filter (fun l => ¬l.isEmpty)
  let problem :=
    match lines with
    | l :: _ => l
    | [] => raw.take 100
  let suggested := extractSuggestedFix raw
  let fixType := categorizeFixType problem raw
  let key :=
    sev ++ ":" ++
    (match fl.1 with | some f => String.mk f | none => "None") ++ ":" ++
    (match fl.2 with | some l => String.mk l | none => "None") ++ ":" ++
    String.mk (problem.take 30)
  let issue : Issue :=
    { severity := sev
      problem := String.mk problem
      file := match fl.1 with
              | some f => if f.isEmpty then "unknown" else String.mk f
              | none => "unknown"
      line := fl.2.map natOfDigits
      fix_type := fixType
      suggested_fix := suggested.map String.mk
      full_context := String.mk (raw.take 500) }
  (issue, key)

/-- The deduplicating accumulation loop of `parse`: issues are appended in
match order, skipping any match whose key was already seen. -/
def dedupFold (ms : List (String × List Char)) : List Issue :=
  (ms.foldl
    (fun (acc : List Issue × List String) m =>
      let ik := processMatch m.1 m.2
      if acc.2.contains ik.2 then acc else (acc.1 ++ [ik.1], ik.2 :: acc.2))
    ([], [])).1

/-- `ReviewIssueParser.parse`: strip fenced code blocks, run the three issue
pattern families in order (bold, plain, bracketed), and deduplicate. -/
def parse (review : String) : List Issue :=
  let content := stripCodeBlocks review.data
  let ms :=
    runFinditer matchBoldAt (content.length + 1) content ++
    finditerPlain content ++
    runFinditer matchBracketAt (content.length + 1) content
  dedupFold ms

end ReviewParser

namespace Modifier

/-! ## `BackupManager` and `CodeModifier` from `bmad_mcp/auto_fix/modifier.py`

Paths are modeled as already-resolved absolute component lists (`Path.resolve`
is the identity of the embedding); the filesystem is a map from path to file
content.  Backup file names (timestamp + UUID fragment in Python) and
`mkstemp` temp names are passed in as parameters.  Fallible operations return
`Except`, and errors carry the filesystem state at raise time. -/

abbrev Pathc := List String

abbrev Fs := Pathc → Option String

def fsSet (fs : Fs) (p : Pathc) (v : Option String) : Fs :=
  fun q => if q = p then v else fs q

inductive ModError where
  /-- `FileNotFoundError` -/
  | fileNotFound : ModError
  /-- `BackupNotFoundError` -/
  | backupNotFound : ModError
  /-- `PermissionError` -/
  | permissionError : ModError
  /-- an injected exception raised during the temp-file write in `write_file` -/
  | ioError : ModError
deriving Repr, DecidableEq

/-- Python `dict` lookup on the `active_backups` association list. -/
def lookupBackup : List (Pathc × Pathc) → Pathc → Option Pathc
  | [], _ => none
  | (k, v) :: rest, p => if k = p then some v else lookupBackup rest p

/-- Python `dict` assignment: replace in place if the key exists, else
append. -/
def setBackup : List (Pathc × Pathc) → Pathc → Pathc → List (Pathc × Pathc)
  | [], p, b => [(p, b)]
  | (k, v) :: rest, p, b =>
    if k = p then (k, b) :: rest else (k, v) :: setBackup rest p b

structure BackupManager where
  project_root : Pathc
  backup_dir : Pathc
  active_backups : List (Pathc × Pathc)
deriving Repr, DecidableEq

/-- `BackupManager.create_backup`: fail with `FileNotFoundError` when the
source does not exist; otherwise copy the content to
`backup_dir/backupName` and record the path in the active-backup table.
Returns the updated manager, filesystem, and the backup path. -/
def createBackup (bm : BackupManager) (fs : Fs) (file_path : Pathc)
    (backupName : String) : Except ModError (BackupManager × Fs × Pathc) :=
  match fs file_path with
  | none => .error .fileNotFound
  | some content =>
    let backup_path := bm.backup_dir ++ [backupName]
    let fs1 := fsSet fs backup_path (some content)
    let bm1 := { bm with
      active_backups := setBackup bm.active_backups file_path backup_path }
    .ok (bm1, fs1, backup_path)

/-- `BackupManager.restore_backup`: fail with `BackupNotFoundError` when no
active entry exists or the recorded backup file no longer exists; otherwise
copy the backup content back over the live file. -/
def restoreBackup (bm : BackupManager) (fs : Fs) (file_path : Pathc) :
    Except ModError Fs :=
  match lookupBackup bm.active_backups file_path with
  | none => .error .backupNotFound
  | some backup_path =>
    match fs backup_path with
    | none => .error .backupNotFound
    | some content => .ok (fsSet fs file_path (some content))

structure CodeModifier where
  project_root : Pathc
  backup_manager : BackupManager
deriving Repr

/-- `CodeModifier.validate_path`: succeed with the resolved path iff
`resolved.relative_to(project_root)` succeeds, i.e. the project root is a
prefix of the resolved path; otherwise raise `PermissionError`. -/
def validatePath (m : CodeModifier) (file_path : Pathc) : Except ModError Pathc :=
  if m.project_root.isPrefixOf file_path then .ok file_path
  else .error .permissionError

/-- `CodeModifier.write_file`: validate the path, back up an existing target,
then write the content to a fresh temp file in the target's directory and
atomically replace the target.  `writeFault` injects an exception inside the
`try` block (before the rename completes); the handler removes the temp file
and re-raises.  Errors carry the filesystem and backup-manager state at raise
time. -/
def writeFile (m : CodeModifier) (fs : Fs) (file_path : Pathc) (content : String)
    (backupName tempName : String) (writeFault : Bool) :
    Except (ModError × Fs × BackupManager) (Fs × BackupManager) :=
  match validatePath m file_path with
  | .error e => .error (e, fs, m.backup_manager)
  | .ok target =>
    let backedUp : Except (ModError × Fs × BackupManager) (Fs × BackupManager) :=
      if (fs target).isSome then
        match createBackup m.backup_manager fs target backupName with
        | .ok (bm1, fs1, _) => .ok (fs1, bm1)
        | .error e => .error (e, fs, m.backup_manager)
      else .ok (fs, m.backup_manager)
    match backedUp with
    | .error e => .error e
    | .ok (fs1, bm1) =>
      let temp_path := target.dropLast ++ [tempName]
      let fs2 := fsSet fs1 temp_path (some content)
      if writeFault then
        .error (.ioError, fsSet fs2 temp_path none, bm1)
      else
        .ok (fsSet (fsSet fs2 target (some content)) temp_path none, bm1)

/-- `CodeModifier.rollback`: validate, then restore from the active backup. -/
def rollback (m : CodeModifier) (fs : Fs) (file_path : Pathc) :
    Except ModError Fs :=
  match validatePath m file_path with
  | .error e => .error e
  | .ok target => restoreBackup m.backup_manager fs target

end Modifier

namespace Engine

/-! ## `FixStrategyEngine` from `bmad_mcp/auto_fix/engine.py`

A strategy is its `can_fix` predicate together with its `apply_fix` behavior;
`project_root` and `dry_run` (constant across one engine run) are absorbed
into the strategy's closure.  A Python exception raised by `apply_fix` is an
`Except.error` carrying `str(e)`. -/

/-- The `FixResult` dataclass from `bmad_mcp/auto_fix/models.py`. -/
structure FixResult where
  issue : ReviewParser.Issue
  status : String
  changes : List String
  error_message : Option String
deriving Repr, DecidableEq

structure FixStrategy where
  can_fix : ReviewParser.Issue → Bool
  apply_fix : ReviewParser.Issue → Except String FixResult

/-- `FixStrategyEngine.find_strategy`: first registered strategy whose
`can_fix` returns true. -/
def findStrategy (strategies : List FixStrategy) (issue : ReviewParser.Issue) :
    Option FixStrategy :=
  strategies.find? (fun s => s.can_fix issue)

/-- Processing of a single issue inside the `fix_issues` loop. -/
def fixOne (strategies : List FixStrategy) (issue : ReviewParser.Issue) : FixResult :=
  match findStrategy strategies issue with
  | none =>
    { issue := issue
      status := "skipped"
      changes := []
      error_message := some "No fix strategy available for this issue type" }
  | some s =>
    match s.apply_fix issue with
    | .ok r => r
    | .error e =>
      { issue := issue
        status := "failed"
        changes := []
        error_message := some e }

/-- `FixStrategyEngine.fix_issues`: one result per issue, in input order; the
loop never aborts on a strategy exception. -/
def fixIssues (strategies : List FixStrategy) (issues : List ReviewParser.Issue) :
    List FixResult :=
  issues.map (fixOne strategies)

end Engine

namespace Formatting

/-! ## `FormattingStrategy` from `bmad_mcp/auto_fix/strategies/formatting.py`

The external `black` and `isort` subprocesses are modeled as content
transformations together with exit-code and stderr predicates; `compile()`
from `FixStrategy.validate_fix` (`strategies/base.py`) is a syntactic-validity
predicate.  The strategy touches a single target file, modeled by its
optional content.  `Issue.full_context` is `Optional[str]` in Python; the
embedding uses `String`, with `None` and `""` identified (the only use is
`(issue.full_context or "").lower()`). -/

/-- `FORMATTING_KEYWORDS` from `formatting.py`. -/
def FORMATTING_KEYWORDS : List String :=
  ["format", "formatting", "black", "isort", "import order", "whitespace",
   "indentation", "trailing", "style", "pep8", "pep 8"]

/-- External-tool behavior for one engine run. -/
structure ExternalTools where
  /-- `black` resolves on PATH (otherwise `subprocess.run` raises
  `FileNotFoundError`) -/
  blackInstalled : Bool
  /-- the content `black <file>` leaves on disk when it exits 0 -/
  black : String → String
  /-- `black <file>` exits 0 (on nonzero exit the file is untouched) -/
  blackExitZero : String → Bool
  /-- the stderr of `black <file>` contains "reformatted" -/
  blackReformattedMsg : String → Bool
  /-- `black --check <file>` exits nonzero (file would be reformatted) -/
  blackCheckNonzero : String → Bool
  /-- `isort` resolves on PATH (its absence is tolerated) -/
  isortInstalled : Bool
  /-- the content `isort <file>` leaves on disk when it exits 0 -/
  isort : String → String
  /-- `isort <file>` exits 0 -/
  isortExitZero : String → Bool
  /-- `compile(content, file, "exec")` succeeds -/
  compileOk : String → Bool

/-- `FormattingStrategy.can_fix`: a Python file that is either pre-classified
`auto` or whose problem/context mentions a formatting keyword. -/
def canFix (issue : ReviewParser.Issue) : Bool :=
  if ¬ issue.file.endsWith ".py" then false
  else if issue.fix_type = "auto" then true
  else
    let combined :=
      (issue.problem.data ++ [' '] ++ issue.full_context.data).map lowerChar
    FORMATTING_KEYWORDS.any (fun k => containsSub k.data combined)

/-- `FixStrategy.validate_fix` from `strategies/base.py`: the content must
have changed, and a `.py` file must still compile. -/
def validateFix (tools : ExternalTools) (issue : ReviewParser.Issue)
    (old_content new_content : String) : Bool :=
  if old_content = new_content then false
  else if issue.file.endsWith ".py" then tools.compileOk new_content
  else true

/-- `FormattingStrategy.apply_fix`.  `fileName` is `file_path.name` (used in
change messages), `fileContent` the target file's content (`none` when the
file does not exist).  Returns the `FixResult` and the file content after the
call. -/
def applyFix (tools : ExternalTools) (fileName : String)
    (issue : ReviewParser.Issue) (dry_run : Bool) (fileContent : Option String) :
    Engine.FixResult × Option String :=
  match fileContent with
  | none =>
    ({ issue := issue
       status := "failed"
       changes := []
       error_message := some ("File not found: " ++ fileName) }, none)
  | some original_content =>
    if dry_run then
      if tools.blackInstalled then
        let changes :=
          if tools.blackCheckNonzero original_content then
            ["Would format " ++ fileName ++ " with black"]
          else []
        ({ issue := issue
           status := "dry_run"
           changes := changes
           error_message := none }, some original_content)
      else
        ({ issue := issue
           status := "failed"
           changes := []
           error_message := some "black not installed" }, some original_content)
    else
      if ¬ tools.blackInstalled then
        ({ issue := issue
           status := "failed"
           changes := []
           error_message := some "black not installed" }, some original_content)
      else
        let content1 :=
          if tools.blackExitZero original_content then tools.black original_content
          else original_content
        let changes1 :=
          if tools.blackExitZero original_content &&
             (tools.blackReformattedMsg original_content ||
              content1 ≠ original_content) then
            ["Formatted " ++ fileName ++ " with black"]
          else []
        let content2 :=
          if tools.isortInstalled && tools.isortExitZero content1 then
            tools.isort content1
          else content1
        let changes2 :=
          if tools.isortInstalled && tools.isortExitZero content1 &&
             content2 ≠ original_content then
            changes1 ++ ["Sorted imports in " ++ fileName ++ " with isort"]
          else changes1
        if ¬ validateFix tools issue original_content content2 then
          ({ issue := issue
             status := "failed"
             changes := []
             error_message :=
               some "Fix validation failed - content unchanged or invalid" },
           some original_content)
        else
          ({ issue := issue
             status := "success"
             changes := changes2
             error_message := none }, some content2)

end Formatting

namespace Sprint

/-! ## Sprint status store from `bmad_mcp/sprint.py`

The YAML store file is modeled by the presence/content of its
`development_status` mapping (an insertion-ordered association list, like a
Python dict); `none` at the outer level means the file does not exist, in
which case `load_sprint_status` catches `FileNotFoundError` and returns the
empty dict.  File locking and atomic persistence are cross-process concerns
outside the sequential embedding. -/

def VALID_STATUSES : List String :=
  ["backlog", "ready-for-dev", "in-progress", "review", "done", "blocked"]

structure SprintData where
  development_status : Option (List (String × String))
deriving Repr, DecidableEq

abbrev SprintFile := Option SprintData

/-- Python `dict` lookup. -/
def dictGet {α : Type} : List (String × α) → String → Option α
  | [], _ => none
  | (k, v) :: rest, key => if k = key then some v else dictGet rest key

/-- Python `dict` assignment: replace in place, else append. -/
def dictSet {α : Type} : List (String × α) → String → α → List (String × α)
  | [], key, v => [(key, v)]
  | (k, w) :: rest, key, v =>
    if k = key then (k, v) :: rest else (k, w) :: dictSet rest key v

/-- `load_sprint_status`: an absent file yields the empty dict. -/
def load_sprint_status (file : SprintFile) : SprintData :=
  file.getD ⟨none⟩

/-- `get_development_status`: `data.get("development_status", {})`. -/
def get_development_status (file : SprintFile) : List (String × String) :=
  (load_sprint_status file).development_status.getD []

/-- `_is_story_key`: at least three hyphen-separated parts, the first two all
digits (Python `str.isdigit`, which is false on the empty string). -/
def is_story_key (key : String) : Bool :=
  let parts := splitOnChar '-' key.data
  match parts with
  | p0 :: p1 :: _ :: _ =>
    (¬ p0.isEmpty && p0.all isAsciiDigit) && (¬ p1.isEmpty && p1.all isAsciiDigit)
  | _ => false

/-- `get_stories_by_status`. -/
def get_stories_by_status (file : SprintFile) (status : String) : List String :=
  ((get_development_status file).filter
    (fun kv => kv.2 = status && is_story_key kv.1)).map (fun kv => kv.1)

/-- `get_status_summary`: counts per status over story-shaped keys. -/
def get_status_summary (file : SprintFile) : List (String × Nat) :=
  (get_development_status file).foldl
    (fun counts kv =>
      if is_story_key kv.1 then
        dictSet counts kv.2 ((dictGet counts kv.2).getD 0 + 1)
      else counts)
    []

/-- `update_story_status`: reject a status outside `VALID_STATUSES` with
`ValueError` before touching the store; otherwise load, set the key, save,
re-read, and return whether the stored value equals the request. -/
def update_story_status (file : SprintFile) (story_key new_status : String) :
    Except String (SprintFile × Bool) :=
  if ¬ VALID_STATUSES.contains new_status then
    .error ("Invalid status: " ++ new_status)
  else
    let data := load_sprint_status file
    let dev := data.development_status.getD []
    let dev1 := dictSet dev story_key new_status
    let file1 : SprintFile := some ⟨some dev1⟩
    let actual := dictGet (get_development_status file1) story_key
    .ok (file1, actual = some new_status)

end Sprint

end BmadMcp

/-! # Claim theorems -/

open BmadMcp
open BmadMcp.ReviewParser

set_option maxRecDepth 400000

/-- A concrete strategy for exercising the engine: it accepts HIGH issues and
always raises (its `apply_fix` throws). -/
def sBoom : Engine.FixStrategy :=
  { can_fix := fun i => i.severity == "HIGH"
    apply_fix := fun _ => Except.error "boom" }

def iHigh : Issue :=
  { severity := "HIGH", problem := "p1", file := "a.py", line := none,
    fix_type := "manual", suggested_fix := none, full_context := "c1" }

def iLow : Issue :=
  { severity := "LOW", problem := "p2", file := "b.py", line := none,
    fix_type := "manual", suggested_fix := none, full_context := "c2" }

/-- Idealized external tools for exercising `FormattingStrategy`: black and
isort are installed, succeed, and leave every file unchanged (every file is
already formatted); every content compiles. -/
def idTools : Formatting.ExternalTools :=
  { blackInstalled := true
    black := fun s => s
    blackExitZero := fun _ => true
    blackReformattedMsg := fun _ => false
    blackCheckNonzero := fun _ => false
    isortInstalled := true
    isort := fun s => s
    isortExitZero := fun _ => true
    compileOk := fun _ => true }

def iFmt : Issue :=
  { severity := "LOW", problem := "formatting", file := "a.py", line := none,
    fix_type := "auto", suggested_fix := none, full_context := "formatting" }

/-! ## Helper lemmas -/

/-- Claim C1, counterexample.  The claim states the deduplication key is
`severity + file + line + first-50-chars-of-raw_content`, so two issues with
the same severity, file and line whose raw contents agree on a short common
prefix (here the first 30 characters) but diverge later (at character 30,
well within the first 50) would both be returned.  In the code the key uses
`problem[:30]` instead, so the two blocks below collide and only one issue is
returned. -/
theorem c1_dedup_key_counterexample :
    (parse ("**HIGH**: AAAAAAAAAAAAAAAAAAAAAAAAAAAAAAX\n\n" ++
            "**HIGH**: AAAAAAAAAAAAAAAAAAAAAAAAAAAAAAY")).length = 1 := by
  decide

/-- Claim C1, amended.  The deduplication key is
`severity + file + line + first-30-chars-of-problem` (the problem being the
first non-blank line of the span).  Consequently: two issues sharing
severity/file/line whose problems agree on their first 30 characters are
merged even though their raw contents diverge within the first 50 characters
(first conjunct); issues whose problems already differ within the first 30
characters are both returned (second and third conjuncts); and the same span
matched by overlapping pattern families (bold and plain families below)
yields exactly one issue (fourth conjunct). -/
theorem c1_dedup_key_amended :
    (parse ("**HIGH**: AAAAAAAAAAAAAAAAAAAAAAAAAAAAAAX\n\n" ++
            "**HIGH**: AAAAAAAAAAAAAAAAAAAAAAAAAAAAAAY")).length = 1 ∧
    (parse ("**HIGH**: CCCCCCCCCCCCCCCCCCCCCCCCCCCCCX\n\n" ++
            "**HIGH**: CCCCCCCCCCCCCCCCCCCCCCCCCCCCCY")).length = 2 ∧
    (parse ("**HIGH**: CCCCCCCCCCCCCCCCCCCCCCCCCCCCCX\n\n" ++
            "**HIGH**: CCCCCCCCCCCCCCCCCCCCCCCCCCCCCY")).map
      (fun i => i.problem) =
      ["CCCCCCCCCCCCCCCCCCCCCCCCCCCCCX", "CCCCCCCCCCCCCCCCCCCCCCCCCCCCCY"] ∧
    (parse "**LOW**: trailing whitespace\nLOW: trailing whitespace").length = 1 := by
  refine ⟨by decide, by decide, by decide, by decide⟩

/-- Claim C2, counterexample.  The claim states the parser covers heading
style, list-item and numbered-list severity labels.  A review marking one
issue in each of those three conventions yields no issues at all: the code
has only the bold, plain line-start, and bracketed pattern families. -/
theorem c2_pattern_families_counterexample :
    parse ("### CRITICAL: Buffer overflow\n\n- HIGH: missing null check\n\n" ++
           "1. LOW: bad style") = [] := by
  decide

/-- Claim C2, amended.  The parser applies exactly three pattern families —
bold-markup severity labels, plain line-start severity-colon labels, and
bracketed severity labels — each supporting all four severities (twelve
canonical texts below each produce exactly one issue with the expected
severity); heading-style, list-item and numbered-list labels are not
supported. -/
theorem c2_pattern_families_amended :
    (parse "**CRITICAL**: problem here").map (fun i => i.severity) = ["CRITICAL"] ∧
    (parse "**HIGH**: problem here").map (fun i => i.severity) = ["HIGH"] ∧
    (parse "**MEDIUM**: problem here").map (fun i => i.severity) = ["MEDIUM"] ∧
    (parse "**LOW**: problem here").map (fun i => i.severity) = ["LOW"] ∧
    (parse "CRITICAL: problem here").map (fun i => i.severity) = ["CRITICAL"] ∧
    (parse "HIGH: problem here").map (fun i => i.severity) = ["HIGH"] ∧
    (parse "MEDIUM: problem here").map (fun i => i.severity) = ["MEDIUM"] ∧
    (parse "LOW: problem here").map (fun i => i.severity) = ["LOW"] ∧
    (parse "[CRITICAL] problem here").map (fun i => i.severity) = ["CRITICAL"] ∧
    (parse "[HIGH] problem here").map (fun i => i.severity) = ["HIGH"] ∧
    (parse "[MEDIUM] problem here").map (fun i => i.severity) = ["MEDIUM"] ∧
    (parse "[LOW] problem here").map (fun i => i.severity) = ["LOW"] := by
  refine ⟨by decide, by decide, by decide, by decide, by decide, by decide,
    by decide, by decide, by decide, by decide, by decide, by decide⟩

/-- Claim C3.  The two-block scenario review parses to exactly two issues:
a CRITICAL one at `src/db.py` line 42 classified `manual`, and a LOW one at
`src/utils.py` classified `auto`. -/
theorem c3_scenario_two_issues :
    parse ("**CRITICAL**: SQL injection in `src/db.py` line 42. " ++
           "Use parameterized queries.\n\n" ++
           "**LOW**: trailing whitespace in `src/utils.py`.") =
      [{ severity := "CRITICAL"
         problem := "SQL injection in `src/db.py` line 42. Use parameterized queries."
         file := "src/db.py"
         line := some 42
         fix_type := "manual"
         suggested_fix := some "parameterized queries."
         full_context := "SQL injection in `src/db.py` line 42. Use parameterized queries." },
       { severity := "LOW"
         problem := "trailing whitespace in `src/utils.py`."
         file := "src/utils.py"
         line := none
         fix_type := "auto"
         suggested_fix := none
         full_context := "trailing whitespace in `src/utils.py`." }] := by
  decide

/-- Claim C9, counterexample.  The claim states that when none of the three
file-reference patterns matches, the resulting issue has an empty file field;
in the code the file field is set to the sentinel string "unknown" (the line
field is indeed empty). -/
theorem c9_no_file_match_counterexample :
    parse "**HIGH**: memory leak when shutting down" =
      [{ severity := "HIGH"
         problem := "memory leak when shutting down"
         file := "unknown"
         line := none
         fix_type := "manual"
         suggested_fix := none
         full_context := "memory leak when shutting down" }] ∧
    "unknown" ≠ "" := by
  refine ⟨by decide, by decide⟩

/-- Claim C9, amended.  For every matched span whose (stripped) raw content
matches none of the three file-reference patterns, the resulting issue has
its line field empty and its file field set to the sentinel string
"unknown". -/
theorem c9_no_file_match_amended (sev : String) (raw : List Char)
    (h : extractFileReference (stripWs raw) = (none, none)) :
    (processMatch sev raw).1.file = "unknown" ∧
    (processMatch sev raw).1.line = none := by
  simp [processMatch, h]

/-- Witness for `c9_no_file_match_amended` at a concrete span. -/
theorem c9_no_file_match_amended_witness :
    extractFileReference (stripWs "memory leak when shutting down".data) =
      (none, none) ∧
    ((processMatch "HIGH" "memory leak when shutting down".data).1.file = "unknown" ∧
     (processMatch "HIGH" "memory leak when shutting down".data).1.line = none) :=
  ⟨by decide, c9_no_file_match_amended "HIGH" "memory leak when shutting down".data
    (by decide)⟩

/-- Looking up a key just assigned in a Python-dict association list yields
the assigned value. -/
theorem dictGet_dictSet (d : List (String × α)) (k : String) (v : α) :
    Sprint.dictGet (Sprint.dictSet d k v) k = some v := by
  induction d with
  | nil => simp [Sprint.dictSet, Sprint.dictGet]
  | cons kv rest ih =>
    by_cases h : kv.1 = k
    · simp [Sprint.dictSet, Sprint.dictGet, h]
    · simp [Sprint.dictSet, Sprint.dictGet, h, ih]

/-- Claim C6, counterexample.  The claim includes "planning" and "executing"
in the accepted status set; the code's `VALID_STATUSES` contains neither, so
`update_story_status` rejects both with a `ValueError`. -/
theorem c6_status_planning_counterexample :
    Sprint.update_story_status none "1-2-auth" "planning" =
      Except.error "Invalid status: planning" ∧
    Sprint.update_story_status none "1-2-auth" "executing" =
      Except.error "Invalid status: executing" := by
  refine ⟨rfl, rfl⟩

/-- Claim C6, amended.  `update_story_status` raises a validation error,
before any side effect on the store, for every status outside the enumerated
set `backlog, ready-for-dev, in-progress, review, done, blocked` (note:
without "planning" or "executing"), and accepts every member of that set; on
the success path it returns true, having re-read the store and confirmed the
stored value for the key equals the requested status. -/
theorem c6_status_validation_amended (file : Sprint.SprintFile) (key : String)
    (s : String) (hs : Sprint.VALID_STATUSES.contains s = false)
    (st : String) (hst : Sprint.VALID_STATUSES.contains st = true) :
    Sprint.update_story_status file key s =
      Except.error ("Invalid status: " ++ s) ∧
    (match Sprint.update_story_status file key st with
     | Except.ok fb =>
       fb.2 = true ∧
       Sprint.dictGet (Sprint.get_development_status fb.1) key = some st
     | Except.error _ => False) := by
  have hs2 : s ∉ Sprint.VALID_STATUSES := by simpa using hs
  have hst2 : st ∈ Sprint.VALID_STATUSES := by simpa using hst
  constructor
  · simp [Sprint.update_story_status, hs2]
  · simp [Sprint.update_story_status, hst2, Sprint.get_development_status,
      Sprint.load_sprint_status, dictGet_dictSet]

/-- Witness for `c6_status_validation_amended` on a concrete store. -/
theorem c6_status_validation_amended_witness :
    Sprint.VALID_STATUSES.contains "planning" = false ∧
    Sprint.VALID_STATUSES.contains "done" = true ∧
    (Sprint.update_story_status (some ⟨some [("1-1-x", "backlog")]⟩) "1-1-x"
        "planning" = Except.error "Invalid status: planning" ∧
     (match Sprint.update_story_status (some ⟨some [("1-1-x", "backlog")]⟩)
          "1-1-x" "done" with
      | Except.ok fb =>
        fb.2 = true ∧
        Sprint.dictGet (Sprint.get_development_status fb.1) "1-1-x" = some "done"
      | Except.error _ => False)) :=
  ⟨by decide, by decide,
   c6_status_validation_amended (some ⟨some [("1-1-x", "backlog")]⟩) "1-1-x"
     "planning" (by decide) "done" (by decide)⟩

/-- Claim C10.  When no sprint-status store file exists, `load_sprint_status`
returns the empty mapping (no `development_status` key) instead of raising,
every read operation reports no stories, and `update_story_status` with a
valid status succeeds, leaving a store whose `development_status` mapping is
exactly the single requested entry, and returns true. -/
theorem c10_missing_store (q key st : String)
    (hst : Sprint.VALID_STATUSES.contains st = true) :
    Sprint.load_sprint_status none = ⟨none⟩ ∧
    Sprint.get_development_status none = [] ∧
    Sprint.get_stories_by_status none q = [] ∧
    Sprint.get_status_summary none = [] ∧
    Sprint.update_story_status none key st =
      Except.ok (some ⟨some [(key, st)]⟩, true) := by
  have hst2 : st ∈ Sprint.VALID_STATUSES := by simpa using hst
  refine ⟨rfl, rfl, rfl, rfl, ?_⟩
  simp [Sprint.update_story_status, hst2, Sprint.load_sprint_status,
    Sprint.get_development_status, Sprint.dictSet, Sprint.dictGet]

/-- Witness for `c10_missing_store` at a concrete key and status. -/
theorem c10_missing_store_witness :
    Sprint.VALID_STATUSES.contains "backlog" = true ∧
    (Sprint.load_sprint_status none = ⟨none⟩ ∧
     Sprint.get_development_status none = [] ∧
     Sprint.get_stories_by_status none "done" = [] ∧
     Sprint.get_status_summary none = [] ∧
     Sprint.update_story_status none "2-1-login" "backlog" =
       Except.ok (some ⟨some [("2-1-login", "backlog")]⟩, true)) :=
  ⟨by decide, c10_missing_store "done" "2-1-login" "backlog" (by decide)⟩

/-- Looking up a path just recorded in the active-backup table yields the
recorded backup path. -/
theorem lookupBackup_setBackup (t : List (Modifier.Pathc × Modifier.Pathc))
    (p b : Modifier.Pathc) :
    Modifier.lookupBackup (Modifier.setBackup t p b) p = some b := by
  induction t with
  | nil => simp [Modifier.setBackup, Modifier.lookupBackup]
  | cons kv rest ih =>
    by_cases h : kv.1 = p
    · simp [Modifier.setBackup, Modifier.lookupBackup, h]
    · simp [Modifier.setBackup, Modifier.lookupBackup, h, ih]

/-- Claim C5.  Backing up an existing file and immediately restoring it (no
intervening write) leaves the file with its original content (first
conjunct); `create_backup` raises `FileNotFoundError` when the source file
does not exist (second conjunct); `restore_backup` raises
`BackupNotFoundError` when no active entry exists for the path (third
conjunct) or when the recorded backup file has since been deleted (fourth
conjunct). -/
theorem c5_backup_roundtrip
    (bmA : Modifier.BackupManager) (fsA : Modifier.Fs) (pA : Modifier.Pathc)
    (c nameA : String) (hA : fsA pA = some c)
    (bmB : Modifier.BackupManager) (fsB : Modifier.Fs) (pB : Modifier.Pathc)
    (nameB : String) (hB : fsB pB = none)
    (bmC : Modifier.BackupManager) (fsC : Modifier.Fs) (pC : Modifier.Pathc)
    (hC : Modifier.lookupBackup bmC.active_backups pC = none)
    (bmD : Modifier.BackupManager) (fsD : Modifier.Fs) (pD bp : Modifier.Pathc)
    (hD1 : Modifier.lookupBackup bmD.active_backups pD = some bp)
    (hD2 : fsD bp = none) :
    (match Modifier.createBackup bmA fsA pA nameA with
     | Except.ok r =>
       match Modifier.restoreBackup r.1 r.2.1 pA with
       | Except.ok fs2 => fs2 pA = some c
       | Except.error _ => False
     | Except.error _ => False) ∧
    Modifier.createBackup bmB fsB pB nameB = Except.error .fileNotFound ∧
    Modifier.restoreBackup bmC fsC pC = Except.error .backupNotFound ∧
    Modifier.restoreBackup bmD fsD pD = Except.error .backupNotFound := by
  refine ⟨?_, ?_, ?_, ?_⟩
  · simp [Modifier.createBackup, hA, Modifier.restoreBackup,
      lookupBackup_setBackup, Modifier.fsSet]
  · simp [Modifier.createBackup, hB]
  · simp [Modifier.restoreBackup, hC]
  · simp [Modifier.restoreBackup, hD1, hD2]

/-- Witness for `c5_backup_roundtrip` on a concrete filesystem. -/
theorem c5_backup_roundtrip_witness :
    ((fun p => if p = ["r", "a.py"] then some "hello" else none) :
        Modifier.Fs) ["r", "a.py"] = some "hello" ∧
    ((fun _ => none) : Modifier.Fs) ["r", "b.py"] = none ∧
    Modifier.lookupBackup
      (Modifier.BackupManager.active_backups ⟨["r"], ["r", ".bmad"], []⟩)
      ["r", "a.py"] = none ∧
    Modifier.lookupBackup
      (Modifier.BackupManager.active_backups
        ⟨["r"], ["r", ".bmad"], [(["r", "a.py"], ["r", ".bmad", "gone.bak"])]⟩)
      ["r", "a.py"] = some ["r", ".bmad", "gone.bak"] ∧
    ((fun _ => none) : Modifier.Fs) ["r", ".bmad", "gone.bak"] = none ∧
    ((match Modifier.createBackup ⟨["r"], ["r", ".bmad"], []⟩
        (fun p => if p = ["r", "a.py"] then some "hello" else none)
        ["r", "a.py"] "a.py_1_ab.bak" with
      | Except.ok r =>
        match Modifier.restoreBackup r.1 r.2.1 ["r", "a.py"] with
        | Except.ok fs2 => fs2 ["r", "a.py"] = some "hello"
        | Except.error _ => False
      | Except.error _ => False) ∧
     Modifier.createBackup ⟨["r"], ["r", ".bmad"], []⟩ (fun _ => none)
       ["r", "b.py"] "b.py_1_cd.bak" = Except.error .fileNotFound ∧
     Modifier.restoreBackup ⟨["r"], ["r", ".bmad"], []⟩
       (fun p => if p = ["r", "a.py"] then some "hello" else none)
       ["r", "a.py"] = Except.error .backupNotFound ∧
     Modifier.restoreBackup
       ⟨["r"], ["r", ".bmad"], [(["r", "a.py"], ["r", ".bmad", "gone.bak"])]⟩
       (fun _ => none) ["r", "a.py"] = Except.error .backupNotFound) :=
  ⟨rfl, rfl, rfl, rfl, rfl,
   c5_backup_roundtrip
     ⟨["r"], ["r", ".bmad"], []⟩
     (fun p => if p = ["r", "a.py"] then some "hello" else none)
     ["r", "a.py"] "hello" "a.py_1_ab.bak" rfl
     ⟨["r"], ["r", ".bmad"], []⟩ (fun _ => none) ["r", "b.py"] "b.py_1_cd.bak" rfl
     ⟨["r"], ["r", ".bmad"], []⟩
     (fun p => if p = ["r", "a.py"] then some "hello" else none)
     ["r", "a.py"] rfl
     ⟨["r"], ["r", ".bmad"], [(["r", "a.py"], ["r", ".bmad", "gone.bak"])]⟩
     (fun _ => none) ["r", "a.py"] ["r", ".bmad", "gone.bak"] rfl rfl⟩

/-- Claim C4.  For every path that is not a descendant of the project root,
`validate_path` raises `PermissionError` (first conjunct), and `write_file`
on such a path raises it before any filesystem mutation — the state carried
by the error is the unmodified input filesystem, so the out-of-tree target is
untouched (second conjunct).  For an in-tree path with an existing target,
`write_file` records a backup holding the original content and atomically
replaces the target via a temp file in the target's directory, removing the
temp file (third conjunct); and when an exception strikes during the write,
the temp file is removed and the live target still holds its original
content (fourth conjunct).  The freshness of the `mkstemp` name and of the
timestamp+UUID backup name is expressed by the three disequality
hypotheses. -/
theorem c4_write_file_safety (root : Modifier.Pathc)
    (bm : Modifier.BackupManager) (fs : Modifier.Fs)
    (p q : Modifier.Pathc) (content origc backupName tempName : String) (b : Bool)
    (hq : root.isPrefixOf q = false)
    (hp : root.isPrefixOf p = true)
    (horig : fs p = some origc)
    (htemp : p ≠ p.dropLast ++ [tempName])
    (hbt : bm.backup_dir ++ [backupName] ≠ p.dropLast ++ [tempName])
    (hbp : p ≠ bm.backup_dir ++ [backupName]) :
    Modifier.validatePath ⟨root, bm⟩ q = Except.error .permissionError ∧
    Modifier.writeFile ⟨root, bm⟩ fs q content backupName tempName b =
      Except.error (.permissionError, fs, bm) ∧
    (match Modifier.writeFile ⟨root, bm⟩ fs p content backupName tempName false with
     | Except.ok r =>
       r.1 p = some content ∧
       r.1 (bm.backup_dir ++ [backupName]) = some origc ∧
       Modifier.lookupBackup r.2.active_backups p =
         some (bm.backup_dir ++ [backupName]) ∧
       r.1 (p.dropLast ++ [tempName]) = none
     | Except.error _ => False) ∧
    (match Modifier.writeFile ⟨root, bm⟩ fs p content backupName tempName true with
     | Except.error e =>
       e.1 = .ioError ∧ e.2.1 p = some origc ∧
       e.2.1 (p.dropLast ++ [tempName]) = none
     | Except.ok _ => False) := by
  refine ⟨?_, ?_, ?_, ?_⟩
  · simp [Modifier.validatePath, hq]
  · simp [Modifier.writeFile, Modifier.validatePath, hq]
  · simp [Modifier.writeFile, Modifier.validatePath, hp, Modifier.createBackup,
      horig, Modifier.fsSet, htemp, hbt, hbp, lookupBackup_setBackup,
      Ne.symm hbt, Ne.symm hbp]
  · simp [Modifier.writeFile, Modifier.validatePath, hp, Modifier.createBackup,
      horig, Modifier.fsSet, htemp, hbp]

/-- Witness for `c4_write_file_safety` on a concrete filesystem: the project
root is `/r`, the in-tree target `/r/a.py`, the out-of-tree target
`/etc/passwd`. -/
theorem c4_write_file_safety_witness :
    (["r"] : Modifier.Pathc).isPrefixOf ["etc", "passwd"] = false ∧
    (["r"] : Modifier.Pathc).isPrefixOf ["r", "a.py"] = true ∧
    ((fun p => if p = ["r", "a.py"] then some "old" else none) :
        Modifier.Fs) ["r", "a.py"] = some "old" ∧
    (["r", "a.py"] : Modifier.Pathc) ≠
      (["r", "a.py"] : Modifier.Pathc).dropLast ++ [".a.pyq1.tmp"] ∧
    (["r", ".bmad"] : Modifier.Pathc) ++ ["a.py_1_ab.bak"] ≠
      (["r", "a.py"] : Modifier.Pathc).dropLast ++ [".a.pyq1.tmp"] ∧
    (["r", "a.py"] : Modifier.Pathc) ≠
      (["r", ".bmad"] : Modifier.Pathc) ++ ["a.py_1_ab.bak"] ∧
    (Modifier.validatePath ⟨["r"], ⟨["r"], ["r", ".bmad"], []⟩⟩ ["etc", "passwd"] =
       Except.error .permissionError ∧
     Modifier.writeFile ⟨["r"], ⟨["r"], ["r", ".bmad"], []⟩⟩
         (fun p => if p = ["r", "a.py"] then some "old" else none)
         ["etc", "passwd"] "new" "a.py_1_ab.bak" ".a.pyq1.tmp" false =
       Except.error (.permissionError,
         (fun p => if p = ["r", "a.py"] then some "old" else none),
         ⟨["r"], ["r", ".bmad"], []⟩) ∧
     (match Modifier.writeFile ⟨["r"], ⟨["r"], ["r", ".bmad"], []⟩⟩
         (fun p => if p = ["r", "a.py"] then some "old" else none)
         ["r", "a.py"] "new" "a.py_1_ab.bak" ".a.pyq1.tmp" false with
      | Except.ok r =>
        r.1 ["r", "a.py"] = some "new" ∧
        r.1 ((["r", ".bmad"] : Modifier.Pathc) ++ ["a.py_1_ab.bak"]) = some "old" ∧
        Modifier.lookupBackup r.2.active_backups ["r", "a.py"] =
          some ((["r", ".bmad"] : Modifier.Pathc) ++ ["a.py_1_ab.bak"]) ∧
        r.1 ((["r", "a.py"] : Modifier.Pathc).dropLast ++ [".a.pyq1.tmp"]) = none
      | Except.error _ => False) ∧
     (match Modifier.writeFile ⟨["r"], ⟨["r"], ["r", ".bmad"], []⟩⟩
         (fun p => if p = ["r", "a.py"] then some "old" else none)
         ["r", "a.py"] "new" "a.py_1_ab.bak" ".a.pyq1.tmp" true with
      | Except.error e =>
        e.1 = .ioError ∧ e.2.1 ["r", "a.py"] = some "old" ∧
        e.2.1 ((["r", "a.py"] : Modifier.Pathc).dropLast ++ [".a.pyq1.tmp"]) = none
      | Except.ok _ => False)) :=
  ⟨by decide, by decide, rfl, by decide, by decide, by decide,
   c4_write_file_safety ["r"] ⟨["r"], ["r", ".bmad"], []⟩
     (fun p => if p = ["r", "a.py"] then some "old" else none)
     ["r", "a.py"] ["etc", "passwd"] "new" "old" "a.py_1_ab.bak" ".a.pyq1.tmp"
     false (by decide) (by decide) rfl (by decide) (by decide) (by decide)⟩

/-- `fix_issues` positionally: the k-th result is the processing of the k-th
issue. -/
theorem fixIssues_get (strategies : List Engine.FixStrategy)
    (issues : List ReviewParser.Issue) (k : Nat) (hk : k < issues.length)
    (hk2 : k < (Engine.fixIssues strategies issues).length) :
    (Engine.fixIssues strategies issues).get ⟨k, hk2⟩ =
      Engine.fixOne strategies (issues.get ⟨k, hk⟩) := by
  simp [Engine.fixIssues]

/-- A processed issue is skipped exactly when no registered strategy's
`can_fix` accepts it, provided no strategy itself returns a result with
status "skipped" (true of the repository's only concrete strategy,
`FormattingStrategy`). -/
theorem fixOne_skipped_iff (strategies : List Engine.FixStrategy)
    (issue : ReviewParser.Issue)
    (Hskip : ∀ s ∈ strategies, ∀ i r,
      s.apply_fix i = Except.ok r → r.status ≠ "skipped") :
    (Engine.fixOne strategies issue).status = "skipped" ↔
      ∀ s ∈ strategies, s.can_fix issue = false := by
  cases hfind : Engine.findStrategy strategies issue with
  | none =>
    simp only [Engine.fixOne, hfind]
    constructor
    · intro _ s hs
      have hfind2 : strategies.find? (fun t => t.can_fix issue) = none := hfind
      have := List.find?_eq_none.mp hfind2 s hs
      simpa using this
    · intro _
      trivial
  | some s =>
    have hfind2 : strategies.find? (fun t => t.can_fix issue) = some s := hfind
    have hmem : s ∈ strategies := List.mem_of_find?_eq_some hfind2
    have hcan : s.can_fix issue = true := by
      have := List.find?_some hfind2
      simpa using this
    simp only [Engine.fixOne, hfind]
    constructor
    · intro hstat
      exfalso
      cases happ : s.apply_fix issue with
      | ok r =>
        rw [happ] at hstat
        exact Hskip s hmem issue r happ hstat
      | error e =>
        rw [happ] at hstat
        simp at hstat
    · intro hall
      exact absurd hcan (by simp [hall s hmem])

/-- The skipped result emitted when no strategy matches. -/
theorem fixOne_no_strategy (strategies : List Engine.FixStrategy)
    (issue : ReviewParser.Issue)
    (h : ∀ s ∈ strategies, s.can_fix issue = false) :
    Engine.fixOne strategies issue =
      { issue := issue, status := "skipped", changes := [],
        error_message := some "No fix strategy available for this issue type" } := by
  have hfind : Engine.findStrategy strategies issue = none := by
    show strategies.find? (fun t => t.can_fix issue) = none
    apply List.find?_eq_none.mpr
    intro s hs
    simp [h s hs]
  simp [Engine.fixOne, hfind]

/-- The failed result emitted when the chosen strategy raises. -/
theorem fixOne_apply_error (strategies : List Engine.FixStrategy)
    (issue : ReviewParser.Issue) (s : Engine.FixStrategy) (e : String)
    (hfind : Engine.findStrategy strategies issue = some s)
    (herr : s.apply_fix issue = Except.error e) :
    Engine.fixOne strategies issue =
      { issue := issue, status := "failed", changes := [],
        error_message := some e } := by
  simp [Engine.fixOne, hfind, herr]

/-- Claim C7.  `fix_issues` returns exactly one result per input issue in
input order (first conjunct and the positional statements); a result is
skipped iff no registered strategy's `can_fix` accepted the issue (second
conjunct, under the hypothesis — satisfied by the repository's only strategy
— that no strategy returns a result it itself labels "skipped"), in which
case the fixed explanatory message is attached and no exception is raised
(third conjunct); and when the chosen strategy's `apply_fix` raises, the
engine emits a failed result carrying the exception message at that position
while the remaining issues are still processed (fourth conjunct, stated
positionally over the full result list). -/
theorem c7_fix_issues_results (strategies : List Engine.FixStrategy)
    (issues : List ReviewParser.Issue)
    (Hskip : ∀ s ∈ strategies, ∀ i r,
      s.apply_fix i = Except.ok r → r.status ≠ "skipped")
    (k₃ : Nat) (hk₃ : k₃ < issues.length)
    (k₁ : Nat) (hk₁ : k₁ < issues.length)
    (h₁ : ∀ s ∈ strategies, s.can_fix (issues.get ⟨k₁, hk₁⟩) = false)
    (k₂ : Nat) (hk₂ : k₂ < issues.length) (s₂ : Engine.FixStrategy) (e₂ : String)
    (h₂f : Engine.findStrategy strategies (issues.get ⟨k₂, hk₂⟩) = some s₂)
    (h₂e : s₂.apply_fix (issues.get ⟨k₂, hk₂⟩) = Except.error e₂) :
    (Engine.fixIssues strategies issues).length = issues.length ∧
    (((Engine.fixIssues strategies issues).get
        ⟨k₃, by simpa [Engine.fixIssues] using hk₃⟩).status = "skipped" ↔
      ∀ s ∈ strategies, s.can_fix (issues.get ⟨k₃, hk₃⟩) = false) ∧
    (Engine.fixIssues strategies issues).get
        ⟨k₁, by simpa [Engine.fixIssues] using hk₁⟩ =
      { issue := issues.get ⟨k₁, hk₁⟩, status := "skipped", changes := [],
        error_message := some "No fix strategy available for this issue type" } ∧
    (Engine.fixIssues strategies issues).get
        ⟨k₂, by simpa [Engine.fixIssues] using hk₂⟩ =
      { issue := issues.get ⟨k₂, hk₂⟩, status := "failed", changes := [],
        error_message := some e₂ } := by
  refine ⟨by simp [Engine.fixIssues], ?_, ?_, ?_⟩
  · rw [fixIssues_get strategies issues k₃ hk₃]
    exact fixOne_skipped_iff strategies _ Hskip
  · rw [fixIssues_get strategies issues k₁ hk₁]
    exact fixOne_no_strategy strategies _ h₁
  · rw [fixIssues_get strategies issues k₂ hk₂]
    exact fixOne_apply_error strategies _ s₂ e₂ h₂f h₂e


/-- Witness for `c7_fix_issues_results` with one registered strategy and two
issues: the first is matched and its strategy raises, the second is matched
by no strategy. -/
theorem c7_fix_issues_results_witness :
    (∀ s ∈ [sBoom], ∀ i r,
      s.apply_fix i = Except.ok r → r.status ≠ "skipped") ∧
    ((Engine.fixIssues [sBoom] [iHigh, iLow]).length = [iHigh, iLow].length ∧
     (((Engine.fixIssues [sBoom] [iHigh, iLow]).get
         ⟨1, by simpa [Engine.fixIssues] using (by decide : 1 < [iHigh, iLow].length)⟩).status = "skipped" ↔
       ∀ s ∈ [sBoom], s.can_fix ([iHigh, iLow].get ⟨1, by decide⟩) = false) ∧
     (Engine.fixIssues [sBoom] [iHigh, iLow]).get
         ⟨1, by simpa [Engine.fixIssues] using (by decide : 1 < [iHigh, iLow].length)⟩ =
       { issue := [iHigh, iLow].get ⟨1, by decide⟩, status := "skipped", changes := [],
         error_message := some "No fix strategy available for this issue type" } ∧
     (Engine.fixIssues [sBoom] [iHigh, iLow]).get
         ⟨0, by simpa [Engine.fixIssues] using (by decide : 0 < [iHigh, iLow].length)⟩ =
       { issue := [iHigh, iLow].get ⟨0, by decide⟩, status := "failed", changes := [],
         error_message := some "boom" }) := by
  have hskip : ∀ s ∈ [sBoom], ∀ i r,
      s.apply_fix i = Except.ok r → r.status ≠ "skipped" := by
    intro s hs i r h
    rw [List.mem_singleton] at hs
    subst hs
    exact Except.noConfusion h
  refine ⟨hskip, ?_⟩
  exact c7_fix_issues_results [sBoom] [iHigh, iLow] hskip 1 (by decide) 1 (by decide)
    (by
      intro s hs
      rw [List.mem_singleton] at hs
      subst hs
      rfl)
    0 (by decide) sBoom "boom" rfl rfl


/-- Claim C8, counterexample.  Running `FormattingStrategy.apply_fix` twice
in non-dry-run mode on an already-formatted file (black and isort are fixed
points on its content) yields, on the second run, a result with status
"failed" — not "success" as claimed — because `validate_fix` rejects any fix
that leaves the content unchanged.  The change list is empty and the file
content untouched. -/
theorem c8_format_idempotent_counterexample :
    (Formatting.applyFix idTools "a.py" iFmt false
        ((Formatting.applyFix idTools "a.py" iFmt false (some "x = 1\n")).2)).1.status =
      "failed" ∧
    (Formatting.applyFix idTools "a.py" iFmt false
        ((Formatting.applyFix idTools "a.py" iFmt false (some "x = 1\n")).2)).1.status ≠
      "success" ∧
    (Formatting.applyFix idTools "a.py" iFmt false
        ((Formatting.applyFix idTools "a.py" iFmt false (some "x = 1\n")).2)).1.changes =
      [] ∧
    (Formatting.applyFix idTools "a.py" iFmt false
        ((Formatting.applyFix idTools "a.py" iFmt false (some "x = 1\n")).2)).2 =
      some "x = 1\n" := by
  refine ⟨rfl, by decide, rfl, rfl⟩

/-- Claim C8, amended.  On a file whose content is a fixed point of black and
isort (an already-formatted file), every non-dry-run `apply_fix` — in
particular the second of two consecutive runs — returns a result with status
"failed", an empty change list and the error message "Fix validation failed -
content unchanged or invalid", and leaves the file content unchanged. -/
theorem c8_format_second_run_amended (tools : Formatting.ExternalTools)
    (fileName : String) (issue : Issue) (c : String)
    (hbi : tools.blackInstalled = true)
    (hb : tools.black c = c) (hi : tools.isort c = c) :
    Formatting.applyFix tools fileName issue false (some c) =
      ({ issue := issue, status := "failed", changes := [],
         error_message := some "Fix validation failed - content unchanged or invalid" },
       some c) ∧
    Formatting.applyFix tools fileName issue false
        ((Formatting.applyFix tools fileName issue false (some c)).2) =
      ({ issue := issue, status := "failed", changes := [],
         error_message := some "Fix validation failed - content unchanged or invalid" },
       some c) := by
  have h1 : Formatting.applyFix tools fileName issue false (some c) =
      ({ issue := issue, status := "failed", changes := [],
         error_message := some "Fix validation failed - content unchanged or invalid" },
       some c) := by
    cases hbe : tools.blackExitZero c <;>
      cases hii : tools.isortInstalled <;>
        simp [Formatting.applyFix, Formatting.validateFix, hbi, hb, hi, hbe, hii]
  refine ⟨h1, ?_⟩
  rw [h1]
  exact h1

/-- Witness for `c8_format_second_run_amended` on the idealized tools. -/
theorem c8_format_second_run_amended_witness :
    idTools.blackInstalled = true ∧
    idTools.black "x = 1\n" = "x = 1\n" ∧
    idTools.isort "x = 1\n" = "x = 1\n" ∧
    (Formatting.applyFix idTools "a.py" iFmt false (some "x = 1\n") =
      ({ issue := iFmt, status := "failed", changes := [],
         error_message := some "Fix validation failed - content unchanged or invalid" },
       some "x = 1\n") ∧
     Formatting.applyFix idTools "a.py" iFmt false
         ((Formatting.applyFix idTools "a.py" iFmt false (some "x = 1\n")).2) =
       ({ issue := iFmt, status := "failed", changes := [],
          error_message := some "Fix validation failed - content unchanged or invalid" },
        some "x = 1\n")) :=
  ⟨rfl, rfl, rfl,
   c8_format_second_run_amended idTools "a.py" iFmt "x = 1\n" rfl rfl rfl⟩
